import Mathlib

/-!
Verification development for the thestral SOCKS5 proxy relay.

The definitions below are a shallow embedding of the C++ sources:

* `include/common.h` — `AddressType`, `Address`, `Address::FromAsioEndpoint`;
* `include/base.h` — `PacketWithHeader::StartCreateFrom`,
  `PacketWithSize::StartCreateFrom`;
* `src/tcp_transport.cc` — `TcpTransportImpl::StartClose`,
  `TcpTransportFactoryImpl::StartAccept` / `DoAccept` / `StartConnect`;
* `src/socks_upstream.cc` — `SocksTcpUpstreamFactory::SendAuthRequest`,
  `SocksTcpUpstreamFactory::SendSocksRequest`;
* `src/direct_upstream.cc` — `DirectTcpUpstreamFactory::StartRequest`;
* `src/ssl.cc` — `SslTransportFactoryBuilder`.

C++ machine integers are modelled as `Nat` holding the byte / word values,
`boost::system::error_code` as the inductive `EcType`, asynchronous
continuation-passing code as pure functions from the results the
continuations would receive to a record of the externally visible outcome
(what got closed, which error code and transport the user callback got,
which reads were issued).  Parts of the repository that are referenced from
the embedded sources but are not present under `src/` (the concrete SOCKS
packet classes of `socks.h`/`socks.cc` and `impl::SocksTransportWrapper` of
`socks_upstream.h`) are modelled from the specification; each such
definition carries a doc comment starting with `Modelled from the spec:`.
-/

namespace Thestral

/-- Model of `boost::system::error_code` (`ec_type` in `base.h`): either the
default-constructed (empty, success) code, a system-category error with a
nonzero `errno`-style value, or a code of the SOCKS error category produced
by `error::make_error_code(ResponseCode)`, carrying the response-code value. -/
inductive EcType where
  | ok : EcType
  | sys : Nat → EcType
  | socksErr : Nat → EcType
deriving DecidableEq, Repr

/-- Truthiness of an error code: `if (ec)` in C++ is true iff the stored
value is nonzero.  The default-constructed code is value `0`. -/
def EcType.isErr : EcType → Bool
  | .ok => false
  | .sys v => v != 0
  | .socksErr v => v != 0

/-- The `bad_descriptor` system error (`EBADF`), which boost.asio socket
operations report when invoked on a socket whose descriptor was closed. -/
def badDescriptorEc : EcType := .sys 9

/-- The `not_connected` system error (`ENOTCONN`), reported by `shutdown`
on an open but unconnected socket. -/
def notConnectedEc : EcType := .sys 107

/-- A nonzero protocol-kind error code (§7 error kind 2). -/
def protocolErrorEc : EcType := .sys 71

/-- Wire value of `AddressType::kIPv4` (`common.h`). -/
def AddressType.kIPv4 : Nat := 0x1
/-- Wire value of `AddressType::kDomainName` (`common.h`). -/
def AddressType.kDomainName : Nat := 0x3
/-- Wire value of `AddressType::kIPv6` (`common.h`). -/
def AddressType.kIPv6 : Nat := 0x4

/-- `thestral::Address` from `common.h`.  `type` holds the `AddressType`
byte (a `uint8_t`-backed enum, so invalid bytes such as `0xff` are
representable), `host` the bytes of the host string, `port` the port
number.  The field defaults are the C++ member initializers:
`type = AddressType::kIPv4`, `host{0, 0, 0, 0}` (four NUL bytes),
`port = 0`. -/
structure Address where
  type : Nat := AddressType.kIPv4
  host : List Nat := [0, 0, 0, 0]
  port : Nat := 0
deriving DecidableEq, Repr

instance : Inhabited Address := ⟨{}⟩

/-- The invariant claimed for `Address` (§3): the length of `host` matches
`type` whenever `type` is one of the three SOCKS address types. -/
def hostLenMatchesType (a : Address) : Prop :=
  (a.type = AddressType.kIPv4 → a.host.length = 4) ∧
  (a.type = AddressType.kIPv6 → a.host.length = 16) ∧
  (a.type = AddressType.kDomainName → 1 ≤ a.host.length ∧ a.host.length ≤ 255)

instance (a : Address) : Decidable (hostLenMatchesType a) := by
  unfold hostLenMatchesType; infer_instance

/-- A `boost::asio` IP address as consumed by `Address::FromAsioEndpoint`:
`to_bytes()` of an `address_v4` always yields 4 bytes and that of an
`address_v6` always yields 16 bytes; any other state is `invalid`. -/
inductive AsioIpAddr where
  | v4 (bytes : List Nat) (len4 : bytes.length = 4)
  | v6 (bytes : List Nat) (len16 : bytes.length = 16)
  | invalid

/-- A `boost::asio` endpoint: an IP address plus a port. -/
structure AsioEndpoint where
  addr : AsioIpAddr
  port : Nat

/-- `Address::FromAsioEndpoint` (`common.h`): starts from a
default-constructed `Address`; for a v4 endpoint sets type `kIPv4`, copies
the 4 address bytes and the port; for v6 sets type `kIPv6`, copies the 16
bytes and the port; otherwise only sets the type to the invalid value
`0xff`, leaving host and port at their defaults. -/
def Address.fromAsioEndpoint (ep : AsioEndpoint) : Address :=
  match ep.addr with
  | .v4 bytes _ => { type := AddressType.kIPv4, host := bytes, port := ep.port }
  | .v6 bytes _ => { type := AddressType.kIPv6, host := bytes, port := ep.port }
  | .invalid => { (default : Address) with type := 0xff }

/-- SOCKS `ResponseCode::kSuccess` wire value (§3). -/
def ResponseCode.kSuccess : Nat := 0x00
/-- SOCKS `ResponseCode::kConnectionRefused` wire value (§3). -/
def ResponseCode.kConnectionRefused : Nat := 0x05
/-- SOCKS `ResponseCode::kAddressTypeNotSupported` wire value (§3). -/
def ResponseCode.kAddressTypeNotSupported : Nat := 0x08

/-- SOCKS `AuthMethod::kNoAuth` wire value (§3). -/
def AuthMethod.kNoAuth : Nat := 0x00
/-- SOCKS `AuthMethod::kNoAcceptable` wire value (§3). -/
def AuthMethod.kNoAcceptable : Nat := 0xFF

/-! ## Packet framing (`base.h`) -/

/-- A read issued on a transport while creating a packet. -/
inductive PacketReadStep where
  | headerRead
  | bodyRead
deriving DecidableEq, Repr

/-- The value part of `PacketWithHeader<Header, Body>` from `base.h`: a
header part followed by a body part, both default-constructed by the C++
default constructor. -/
structure PacketWithHeaderM (Header : Type) (Body : Type) where
  header : Header
  body : Body
deriving DecidableEq, Repr

instance (Header Body : Type) [Inhabited Header] [Inhabited Body] :
    Inhabited (PacketWithHeaderM Header Body) := ⟨⟨default, default⟩⟩

/-- Externally visible outcome of `PacketWithHeader::StartCreateFrom`: the
reads issued on the transport, in order, and the error code and packet the
creation callback received. -/
structure CreateFromOutcome (Header : Type) (Body : Type) where
  reads : List PacketReadStep
  cbEc : EcType
  cbPacket : PacketWithHeaderM Header Body
deriving DecidableEq, Repr

/-- `PacketWithHeader<Header, Body>::StartCreateFrom` (`base.h`), with the
result that `Header::StartCreateFrom` would deliver and the result that
`Body::StartCreateFrom` would deliver passed as arguments.  The code first
creates the header; if that completed with an error it calls the callback
with that error and a default packet, issuing no body read.  Otherwise it
creates the body; the callback then receives the body's error code together
with a default-constructed packet whose `header` and `body` fields are
assigned only when the body completed without error. -/
def PacketWithHeader.StartCreateFrom {Header Body : Type}
    [Inhabited Header] [Inhabited Body]
    (headerResult : EcType × Header) (bodyResult : EcType × Body) :
    CreateFromOutcome Header Body :=
  if headerResult.1.isErr then
    { reads := [.headerRead], cbEc := headerResult.1, cbPacket := default }
  else if bodyResult.1.isErr then
    { reads := [.headerRead, .bodyRead], cbEc := bodyResult.1,
      cbPacket := default }
  else
    { reads := [.headerRead, .bodyRead], cbEc := bodyResult.1,
      cbPacket := { header := headerResult.2, body := bodyResult.2 } }

/-- `PacketWithSize<PacketType, N>::StartCreateFrom` (`base.h`), with the
error code of the full-buffer read and the bytes in the read buffer passed
as arguments.  The code default-constructs a `PacketType` and fills it from
the buffer (`FromBytes`) only when the read completed without error; the
callback receives the read's error code and that packet. -/
def PacketWithSize.StartCreateFrom {PacketType : Type} [Inhabited PacketType]
    (fromBytes : List Nat → PacketType) (readEc : EcType) (data : List Nat) :
    EcType × PacketType :=
  let packet : PacketType := default
  let packet := if !readEc.isErr then fromBytes data else packet
  (readEc, packet)

/-- Modelled from the spec: the concrete packet classes live in
`socks.h`/`socks.cc`, which are not under `src/`.  Per §4.5, each packet's
`StartCreateFrom` validates what it read (e.g. `VER≠0x05` is rejected) and,
following the creation-callback convention of `base.h`, surfaces a failed
validation as a protocol error code with a default packet, while a
transport error is passed through unchanged. -/
def headerStartCreateFrom {Header : Type} [Inhabited Header]
    (validate : Header → Bool) (transportEc : EcType) (raw : Header) :
    EcType × Header :=
  if transportEc.isErr then (transportEc, default)
  else if validate raw then (.ok, raw)
  else (protocolErrorEc, default)

/-! ## SOCKS upstream (`socks_upstream.cc`) -/

/-- A TCP transport as seen by the SOCKS upstream code: its introspection
data.  `localAddress` models `GetLocalAddress()` of the underlying socket. -/
structure TcpTransportM where
  localAddress : Address
  remoteAddress : Address
  tid : Nat
deriving DecidableEq, Repr

instance : Inhabited TcpTransportM := ⟨⟨default, default, 0⟩⟩

/-- Modelled from the spec: `ResponseHeader` (`socks.h`, not under `src/`)
is the fixed three-byte `[VER][REP][RSV]` header of a SOCKS response
(§4.5). -/
structure ResponseHeaderM where
  version : Nat
  response_code : Nat
  reserved : Nat
deriving DecidableEq, Repr

instance : Inhabited ResponseHeaderM := ⟨⟨0, 0, 0⟩⟩

/-- `ResponsePacket` = `ResponseHeader` followed by an `Address` body
(§4.5). -/
abbrev ResponsePacketM := PacketWithHeaderM ResponseHeaderM Address

/-- Modelled from the spec: `AuthMethodSelectPacket` (`socks.h`, not under
`src/`) is the two-byte `[VER][METHOD]` packet (§4.5). -/
structure AuthMethodSelectPacketM where
  version : Nat
  method : Nat
deriving DecidableEq, Repr

instance : Inhabited AuthMethodSelectPacketM := ⟨⟨0, 0⟩⟩

/-- Modelled from the spec: `impl::SocksTransportWrapper` is declared in
`socks_upstream.h`, which is not under `src/`.  Per §4.8 and the comment in
`SendSocksRequest`, it wraps an established transport together with the
bound address reported in the upstream's `ResponsePacket` body. -/
structure SocksTransportWrapper where
  wrapped : TcpTransportM
  bound_address : Address
deriving DecidableEq, Repr

/-- Modelled from the spec: the wrapper's `GetLocalAddress` reports the
upstream-reported bound address, not the local address of the underlying
socket (§4.8). -/
def SocksTransportWrapper.GetLocalAddress (w : SocksTransportWrapper) :
    Address := w.bound_address

/-- Externally visible outcome of one SOCKS upstream request step:
whether `StartClose` was invoked on the transport to the upstream, and the
error code and transport handed to the request callback. -/
structure UpstreamRequestOutcome where
  closedTransport : Bool
  cbEc : EcType
  cbTransport : Option SocksTransportWrapper
deriving DecidableEq, Repr

/-- The continuation of `SocksTcpUpstreamFactory::SendSocksRequest`
(`socks_upstream.cc`) that runs when `ResponsePacket::StartCreateFrom`
delivers `(ec, packet)`: on a truthy `ec` or a non-`kSuccess` response
code, the transport is closed and the callback gets `(ec, nullptr)` for a
transport error, or `(make_error_code(response_code), nullptr)` otherwise;
on success the callback gets the wrapper of the transport and the response
body. -/
def SocksTcpUpstreamFactory.onSocksResponse (transport : TcpTransportM)
    (ec : EcType) (packet : ResponsePacketM) : UpstreamRequestOutcome :=
  if ec.isErr || packet.header.response_code != ResponseCode.kSuccess then
    if ec.isErr then
      { closedTransport := true, cbEc := ec, cbTransport := none }
    else
      { closedTransport := true,
        cbEc := .socksErr packet.header.response_code, cbTransport := none }
  else
    { closedTransport := false, cbEc := ec,
      cbTransport := some ⟨transport, packet.body⟩ }

/-- `SocksTcpUpstreamFactory::SendSocksRequest` (`socks_upstream.cc`) as a
function of the error code of the request-packet write and the result of
the subsequent `ResponsePacket` read: a failed write closes the transport
and reports the write error with a null transport; otherwise the response
continuation `onSocksResponse` runs. -/
def SocksTcpUpstreamFactory.SendSocksRequest (transport : TcpTransportM)
    (writeEc : EcType) (respEc : EcType) (resp : ResponsePacketM) :
    UpstreamRequestOutcome :=
  if writeEc.isErr then
    { closedTransport := true, cbEc := writeEc, cbTransport := none }
  else
    SocksTcpUpstreamFactory.onSocksResponse transport respEc resp

/-- Externally visible outcome of `SendAuthRequest`: whether the transport
was closed, and either `some ec` when the request callback was invoked as
`callback(ec, nullptr)`, or `none` when control proceeded to
`SendSocksRequest`. -/
structure AuthSelectOutcome where
  closedTransport : Bool
  callbackResult : Option EcType
deriving DecidableEq, Repr

/-- The continuation of `SocksTcpUpstreamFactory::SendAuthRequest`
(`socks_upstream.cc`) that runs when `AuthMethodSelectPacket::StartCreateFrom`
delivers `(ec, packet)`: on a truthy `ec` or a method other than
`kNoAuth`, the transport is closed and the callback is invoked with
`(ec, nullptr)` — `ec` being whatever the read delivered, the empty code
included; otherwise `SendSocksRequest` is invoked. -/
def SocksTcpUpstreamFactory.onAuthMethodSelect (ec : EcType)
    (packet : AuthMethodSelectPacketM) : AuthSelectOutcome :=
  if ec.isErr || packet.method != AuthMethod.kNoAuth then
    { closedTransport := true, callbackResult := some ec }
  else
    { closedTransport := false, callbackResult := none }

/-- `SocksTcpUpstreamFactory::SendAuthRequest` (`socks_upstream.cc`) as a
function of the error code of the `AuthMethodList` write and the result of
the subsequent `AuthMethodSelectPacket` read. -/
def SocksTcpUpstreamFactory.SendAuthRequest (writeEc : EcType)
    (selectEc : EcType) (packet : AuthMethodSelectPacketM) :
    AuthSelectOutcome :=
  if writeEc.isErr then
    { closedTransport := true, callbackResult := some writeEc }
  else
    SocksTcpUpstreamFactory.onAuthMethodSelect selectEc packet

/-! ## Direct upstream (`direct_upstream.cc`) -/

/-- The action `DirectTcpUpstreamFactory::StartRequest` takes on a target
address: start an async resolve of `host:port` followed by a connect to the
first result (domain names), connect directly to a v4 or v6 endpoint, or
invoke the callback immediately with the given error code and transport. -/
inductive DirectRequestAction where
  | resolveAndConnect (host : List Nat) (port : Nat)
  | connectV4 (host : List Nat) (port : Nat)
  | connectV6 (host : List Nat) (port : Nat)
  | invokeCallback (ec : EcType) (transport : Option TcpTransportM)
deriving DecidableEq, Repr

/-- `DirectTcpUpstreamFactory::StartRequest` (`direct_upstream.cc`): a
`switch` on `address.type` — `kDomainName` resolves then connects,
`kIPv4`/`kIPv6` connect directly, and the `default` branch invokes
`callback(ec_type(), nullptr)`, i.e. a default-constructed (empty, success)
error code and a null transport. -/
def DirectTcpUpstreamFactory.StartRequest (address : Address) :
    DirectRequestAction :=
  if address.type = AddressType.kDomainName then
    .resolveAndConnect address.host address.port
  else if address.type = AddressType.kIPv4 then
    .connectV4 address.host address.port
  else if address.type = AddressType.kIPv6 then
    .connectV6 address.host address.port
  else
    .invokeCallback .ok none

/-! ## TCP transport (`tcp_transport.cc`) -/

/-- State of the TCP socket underlying a `TcpTransportImpl`: whether the
descriptor is open and whether the stream is connected. -/
structure TcpSocketState where
  isOpen : Bool
  connected : Bool
deriving DecidableEq, Repr

/-- `socket_.shutdown(shutdown_both, ec)`: on a socket whose descriptor was
closed it reports `bad_descriptor`; on an open but unconnected socket it
reports `not_connected`; otherwise it succeeds, ending the connection. -/
def socketShutdownBoth (s : TcpSocketState) : TcpSocketState × EcType :=
  if s.isOpen = false then (s, badDescriptorEc)
  else if s.connected = false then (s, notConnectedEc)
  else ({ s with connected := false }, .ok)

/-- `socket_.close(ec)` / `socket_.close()`: closes the descriptor when it
is open and is a successful no-op otherwise. -/
def socketClose (_s : TcpSocketState) : TcpSocketState × EcType :=
  ({ isOpen := false, connected := false }, .ok)

/-- `TcpTransportImpl::StartClose` (`tcp_transport.cc`): shuts the socket
down in both directions; if the shutdown errored, closes with the
error-discarding overload and hands the shutdown error to the close
callback, otherwise closes and hands the close result to the callback.
Returns the resulting socket state and the error code the callback got. -/
def TcpTransportImpl.StartClose (s : TcpSocketState) :
    TcpSocketState × EcType :=
  let r := socketShutdownBoth s
  if r.2.isErr then ((socketClose r.1).1, r.2)
  else socketClose r.1

/-- Which socket a `set_option` call in `tcp_transport.cc` targets. -/
inductive SocketOptTarget where
  | listener
  | acceptedSocket
  | connectedSocket
deriving DecidableEq, Repr, Fintype

/-- A socket option set in `tcp_transport.cc`. -/
inductive SocketOpt where
  | noDelay
  | reuseAddress
deriving DecidableEq, Repr, Fintype

/-- The `set_option` calls `TcpTransportFactoryImpl::StartAccept`
(`tcp_transport.cc`) performs before delegating to `DoAccept`: `no_delay`
then `reuse_address`, both on the newly created acceptor. -/
def TcpTransportFactoryImpl.StartAcceptOptCalls :
    List (SocketOptTarget × SocketOpt) :=
  [(.listener, .noDelay), (.listener, .reuseAddress)]

/-- The `set_option` calls `TcpTransportFactoryImpl::DoAccept`
(`tcp_transport.cc`) performs per accepted connection: none — the accept
handler passes the accepted transport straight to the callback. -/
def TcpTransportFactoryImpl.DoAcceptOptCalls :
    List (SocketOptTarget × SocketOpt) := []

/-- The `set_option` calls `TcpTransportFactoryImpl::StartConnect`
(`tcp_transport.cc`) performs on a successfully connected socket:
`no_delay`. -/
def TcpTransportFactoryImpl.StartConnectSuccessOptCalls :
    List (SocketOptTarget × SocketOpt) :=
  [(.connectedSocket, .noDelay)]

/-- All `set_option` calls on the accept path for one accepted connection:
those of `StartAccept` followed by those of `DoAccept`. -/
def acceptPathOptCalls : List (SocketOptTarget × SocketOpt) :=
  TcpTransportFactoryImpl.StartAcceptOptCalls ++
    TcpTransportFactoryImpl.DoAcceptOptCalls

/-! ## SSL transport factory builder (`ssl.cc`) -/

/-- The option flags `SslTransportFactoryBuilder`'s constructor sets on its
`ssl_ctx_` (`ssl.cc`). -/
structure SslContextModel where
  no_sslv2 : Bool
  no_sslv3 : Bool
  no_tlsv1 : Bool
  single_dh_use : Bool
  default_workarounds : Bool
deriving DecidableEq, Repr

/-- The context as configured by the `SslTransportFactoryBuilder`
constructor: all five option flags set. -/
def initSslContext : SslContextModel := ⟨true, true, true, true, true⟩

/-- `SslTransportFactoryBuilder` (`ssl.cc`): the mutable context plus the
`used_` flag, which the constructor initializes to `false`. -/
structure SslTransportFactoryBuilder where
  ssl_ctx : SslContextModel
  used_ : Bool
deriving DecidableEq, Repr

/-- A freshly constructed `SslTransportFactoryBuilder`. -/
def SslTransportFactoryBuilder.new : SslTransportFactoryBuilder :=
  ⟨initSslContext, false⟩

/-- The factory `Build` yields: it takes ownership of the builder's
context. -/
structure SslTransportFactoryModel where
  ssl_ctx : SslContextModel
deriving DecidableEq, Repr

/-- `SslTransportFactoryBuilder::Build` (`ssl.cc`): returns `nullptr` when
`used_` is already set; otherwise sets `used_` and yields a factory built
from the moved context.  Returned together with the builder's state after
the call. -/
def SslTransportFactoryBuilder.Build (b : SslTransportFactoryBuilder) :
    Option SslTransportFactoryModel × SslTransportFactoryBuilder :=
  if b.used_ then (none, b)
  else (some ⟨b.ssl_ctx⟩, { b with used_ := true })

/-- The results of `n` successive `Build` calls on a builder. -/
def SslTransportFactoryBuilder.buildSeq :
    SslTransportFactoryBuilder → Nat → List (Option SslTransportFactoryModel)
  | _, 0 => []
  | b, n + 1 =>
    let r := b.Build
    r.1 :: buildSeq r.2 n

/-! ## Theorems -/

/-- Claim C6: the `Address` invariant — `host` has length 4 for `kIPv4`,
16 for `kIPv6` and between 1 and 255 for `kDomainName` — holds for the
default-constructed `Address` and for every `Address` returned by
`Address::FromAsioEndpoint`, whatever the asio endpoint (including the
invalid-endpoint branch, which sets the type byte to `0xff`). -/
theorem address_invariant_default_and_fromAsioEndpoint :
    hostLenMatchesType (default : Address) ∧
    ∀ ep : AsioEndpoint, hostLenMatchesType (Address.fromAsioEndpoint ep) := by
  refine ⟨by decide, ?_⟩
  intro ep
  cases h : ep.addr with
  | v4 bytes len4 =>
    simp [Address.fromAsioEndpoint, h, hostLenMatchesType, AddressType.kIPv4,
      AddressType.kIPv6, AddressType.kDomainName, len4]
  | v6 bytes len16 =>
    simp [Address.fromAsioEndpoint, h, hostLenMatchesType, AddressType.kIPv4,
      AddressType.kIPv6, AddressType.kDomainName, len16]
  | invalid =>
    simp [Address.fromAsioEndpoint, h, hostLenMatchesType, AddressType.kIPv4,
      AddressType.kIPv6, AddressType.kDomainName]

/-- Claim C8 counterexample: starting from an open, connected socket, the
first `StartClose` hands its callback the empty code, but the second
`StartClose` on the now-closed transport hands its callback the nonzero
`bad_descriptor` error from the failed shutdown — so the second close does
report an error, contrary to the claim. -/
theorem startClose_second_call_reports_error :
    (TcpTransportImpl.StartClose ⟨true, true⟩).2 = EcType.ok ∧
    (TcpTransportImpl.StartClose
        (TcpTransportImpl.StartClose ⟨true, true⟩).1).2 = badDescriptorEc ∧
    badDescriptorEc.isErr = true := by decide

/-- Claim C8 amended: calling close a second time on an already-closed
transport is safe — the socket stays closed and the close call is a no-op
on it — but the close callback receives the `bad_descriptor` error from the
failed shutdown rather than a success code. -/
theorem startClose_second_call_safe_but_bad_descriptor :
    TcpTransportImpl.StartClose ⟨true, true⟩ =
      (⟨false, false⟩, EcType.ok) ∧
    TcpTransportImpl.StartClose ⟨false, false⟩ =
      (⟨false, false⟩, badDescriptorEc) := by decide

/-- Claim C7 counterexample: the accept path of the TCP transport factory
performs no `set_option` call targeting the accepted socket at all — in
particular it never sets `TCP_NODELAY` on an accepted socket; the only
options set on that path are on the listener. -/
theorem no_option_set_on_accepted_socket :
    ((SocketOptTarget.acceptedSocket, SocketOpt.noDelay) ∉
      acceptPathOptCalls) ∧
    TcpTransportFactoryImpl.DoAcceptOptCalls = [] := by decide

/-- Claim C7 amended: on accept, the TCP transport factory sets
`TCP_NODELAY` and `SO_REUSEADDR` on the listener, and it sets `TCP_NODELAY`
on every connected socket; accepted sockets receive no explicit option
call. -/
theorem tcp_factory_option_calls :
    (SocketOptTarget.listener, SocketOpt.noDelay) ∈ acceptPathOptCalls ∧
    (SocketOptTarget.listener, SocketOpt.reuseAddress) ∈ acceptPathOptCalls ∧
    (∀ opt : SocketOpt,
      (SocketOptTarget.acceptedSocket, opt) ∉ acceptPathOptCalls) ∧
    (SocketOptTarget.connectedSocket, SocketOpt.noDelay) ∈
      TcpTransportFactoryImpl.StartConnectSuccessOptCalls := by decide

/-- Helper: once the `used_` flag of a builder is set, every further
`Build` call yields `none`. -/
theorem buildSeq_used (b : SslTransportFactoryBuilder) (h : b.used_ = true) :
    ∀ n, b.buildSeq n = List.replicate n none
  | 0 => rfl
  | n + 1 => by
    simp [SslTransportFactoryBuilder.buildSeq,
      SslTransportFactoryBuilder.Build, h, buildSeq_used b h n,
      List.replicate]

/-- Claim C9: a fresh `SslTransportFactoryBuilder` builds at most one
factory — across any number of successive `Build` calls, the first yields
the factory carrying the constructor-configured context and every later
call returns null. -/
theorem build_single_shot (n : Nat) :
    SslTransportFactoryBuilder.new.buildSeq (n + 1) =
      some ⟨initSslContext⟩ :: List.replicate n none := by
  have h2 : (SslTransportFactoryBuilder.new.Build).2.used_ = true := rfl
  simp [SslTransportFactoryBuilder.buildSeq]
  constructor
  · rfl
  · exact buildSeq_used _ h2 n

/-- Claim C2 (failing input): for a target `Address` carrying the unknown
type byte `0x02`, `DirectTcpUpstreamFactory::StartRequest` invokes its
callback with the default-constructed (empty, success) error code and a
null transport — not with an `AddressTypeNotSupported` error; the code's
own TODO comment acknowledges the missing error report. -/
theorem directStartRequest_unknown_type_empty_error :
    DirectTcpUpstreamFactory.StartRequest
        { type := 2, host := [], port := 0 } =
      .invokeCallback EcType.ok none ∧
    EcType.ok ≠ EcType.socksErr ResponseCode.kAddressTypeNotSupported ∧
    EcType.ok.isErr = false := by decide

/-- Claim C1: when the next-hop SOCKS server's `ResponsePacket` arrives
without transport error but with a response code other than `kSuccess`,
`SendSocksRequest` closes the transport to the upstream and invokes the
request callback with the SOCKS-category error code carrying exactly that
response code (pass-through) and a null transport. -/
theorem sendSocksRequest_nonSuccess_passthrough (t : TcpTransportM)
    (resp : ResponsePacketM)
    (h : resp.header.response_code ≠ ResponseCode.kSuccess) :
    SocksTcpUpstreamFactory.SendSocksRequest t .ok .ok resp =
      { closedTransport := true,
        cbEc := .socksErr resp.header.response_code,
        cbTransport := none } := by
  simp [SocksTcpUpstreamFactory.SendSocksRequest,
    SocksTcpUpstreamFactory.onSocksResponse, EcType.isErr, bne_iff_ne, h]

/-- Claim C1 witness: a concrete run in which the upstream replied
`kConnectionRefused`. -/
theorem sendSocksRequest_nonSuccess_passthrough_witness :
    (ResponseCode.kConnectionRefused ≠ ResponseCode.kSuccess) ∧
    SocksTcpUpstreamFactory.SendSocksRequest default .ok .ok
        ⟨⟨5, ResponseCode.kConnectionRefused, 0⟩, default⟩ =
      { closedTransport := true,
        cbEc := .socksErr ResponseCode.kConnectionRefused,
        cbTransport := none } :=
  ⟨by decide,
    sendSocksRequest_nonSuccess_passthrough default
      ⟨⟨5, ResponseCode.kConnectionRefused, 0⟩, default⟩ (by decide)⟩

/-- Claim C4: on a `kSuccess` upstream response, the transport handed to
the request callback is the wrapper of the underlying transport and the
response body; its `GetLocalAddress` reports the bound address from the
upstream's `ResponsePacket` body, and differs from the underlying TCP
socket's local address whenever those two addresses differ. -/
theorem sendSocksRequest_success_reports_bound_address (t : TcpTransportM)
    (resp : ResponsePacketM)
    (h : resp.header.response_code = ResponseCode.kSuccess) :
    (SocksTcpUpstreamFactory.SendSocksRequest t .ok .ok resp).cbTransport =
      some ⟨t, resp.body⟩ ∧
    (SocksTransportWrapper.mk t resp.body).GetLocalAddress = resp.body ∧
    (resp.body ≠ t.localAddress →
      (SocksTransportWrapper.mk t resp.body).GetLocalAddress ≠
        t.localAddress) := by
  refine ⟨?_, rfl, fun hne => hne⟩
  simp [SocksTcpUpstreamFactory.SendSocksRequest,
    SocksTcpUpstreamFactory.onSocksResponse, EcType.isErr, h,
    ResponseCode.kSuccess]

/-- Claim C4 witness: a concrete success response whose reported bound
address differs from the underlying socket's local address. -/
theorem sendSocksRequest_success_reports_bound_address_witness :
    ((⟨⟨5, 0, 0⟩, ⟨1, [10, 0, 0, 1], 8080⟩⟩ :
        ResponsePacketM).header.response_code = ResponseCode.kSuccess) ∧
    ((SocksTcpUpstreamFactory.SendSocksRequest
          ⟨⟨1, [127, 0, 0, 1], 4242⟩, default, 7⟩ .ok .ok
          ⟨⟨5, 0, 0⟩, ⟨1, [10, 0, 0, 1], 8080⟩⟩).cbTransport =
        some ⟨⟨⟨1, [127, 0, 0, 1], 4242⟩, default, 7⟩,
          ⟨1, [10, 0, 0, 1], 8080⟩⟩ ∧
      (SocksTransportWrapper.mk ⟨⟨1, [127, 0, 0, 1], 4242⟩, default, 7⟩
          ⟨1, [10, 0, 0, 1], 8080⟩).GetLocalAddress =
        ⟨1, [10, 0, 0, 1], 8080⟩ ∧
      ((⟨1, [10, 0, 0, 1], 8080⟩ : Address) ≠
          (⟨⟨1, [127, 0, 0, 1], 4242⟩, default, 7⟩ :
            TcpTransportM).localAddress →
        (SocksTransportWrapper.mk ⟨⟨1, [127, 0, 0, 1], 4242⟩, default, 7⟩
            ⟨1, [10, 0, 0, 1], 8080⟩).GetLocalAddress ≠
          (⟨⟨1, [127, 0, 0, 1], 4242⟩, default, 7⟩ :
            TcpTransportM).localAddress)) :=
  ⟨by decide,
    sendSocksRequest_success_reports_bound_address
      ⟨⟨1, [127, 0, 0, 1], 4242⟩, default, 7⟩
      ⟨⟨5, 0, 0⟩, ⟨1, [10, 0, 0, 1], 8080⟩⟩ (by decide)⟩

/-- Claim C5 counterexample: when the `AuthMethodSelect` packet arrives
without transport error but selects method `0xFF` (`kNoAcceptable`), the
transport is closed and the callback gets a null transport — but the error
code passed to the callback is the empty (success) code, not an error
indication, contrary to the claim. -/
theorem sendAuthRequest_unsupported_method_empty_ec :
    SocksTcpUpstreamFactory.SendAuthRequest .ok .ok
        ⟨5, AuthMethod.kNoAcceptable⟩ =
      { closedTransport := true, callbackResult := some EcType.ok } ∧
    EcType.ok.isErr = false := by decide

/-- Claim C5 amended: for every `AuthMethodSelect` packet received without
transport error whose method is not `kNoAuth`, the request fails — the
transport to the upstream is closed and the callback is invoked with a
null transport — but the error code handed to the callback is the empty
(success) code the read delivered, so the null transport alone signals the
failure. -/
theorem sendAuthRequest_unsupported_method_fails
    (packet : AuthMethodSelectPacketM)
    (h : packet.method ≠ AuthMethod.kNoAuth) :
    SocksTcpUpstreamFactory.SendAuthRequest .ok .ok packet =
      { closedTransport := true, callbackResult := some EcType.ok } := by
  simp [SocksTcpUpstreamFactory.SendAuthRequest,
    SocksTcpUpstreamFactory.onAuthMethodSelect, EcType.isErr, bne_iff_ne, h]

/-- Claim C5 amended witness: a concrete run with method `kNoAcceptable`. -/
theorem sendAuthRequest_unsupported_method_fails_witness :
    (AuthMethod.kNoAcceptable ≠ AuthMethod.kNoAuth) ∧
    SocksTcpUpstreamFactory.SendAuthRequest .ok .ok
        ⟨5, AuthMethod.kNoAcceptable⟩ =
      { closedTransport := true, callbackResult := some EcType.ok } :=
  ⟨by decide,
    sendAuthRequest_unsupported_method_fails ⟨5, AuthMethod.kNoAcceptable⟩
      (by decide)⟩

/-- Claim C3: in the header-then-body pattern the header is read first;
when the header read succeeds at the transport level but the header fails
validation, the creation short-circuits — the body is never read, the
callback receives the protocol error and the default packet; when the
header is read and validates, the body is read, and a successful body read
yields the packet with the already-read header captured into it. -/
theorem packetWithHeader_header_first_shortcircuit {Header Body : Type}
    [Inhabited Header] [Inhabited Body]
    (validate : Header → Bool) (tec : EcType) (raw : Header)
    (bodyResult : EcType × Body) :
    (PacketWithHeader.StartCreateFrom
        (headerStartCreateFrom validate tec raw) bodyResult).reads.head? =
      some PacketReadStep.headerRead ∧
    (tec = EcType.ok → validate raw = false →
      PacketWithHeader.StartCreateFrom
          (headerStartCreateFrom validate tec raw) bodyResult =
        { reads := [.headerRead], cbEc := protocolErrorEc,
          cbPacket := default }) ∧
    (tec = EcType.ok → validate raw = true →
      (PacketWithHeader.StartCreateFrom
          (headerStartCreateFrom validate tec raw) bodyResult).reads =
        [.headerRead, .bodyRead] ∧
      (bodyResult.1 = EcType.ok →
        (PacketWithHeader.StartCreateFrom
            (headerStartCreateFrom validate tec raw) bodyResult).cbPacket =
          { header := raw, body := bodyResult.2 })) := by
  refine ⟨?_, ?_, ?_⟩
  · unfold PacketWithHeader.StartCreateFrom
    split
    · rfl
    · split <;> rfl
  · intro h1 h2
    simp [headerStartCreateFrom, PacketWithHeader.StartCreateFrom, h1, h2,
      EcType.isErr, protocolErrorEc]
  · intro h1 h2
    have hh : headerStartCreateFrom validate tec raw = (EcType.ok, raw) := by
      simp [headerStartCreateFrom, h1, h2, EcType.isErr]
    rw [hh]
    unfold PacketWithHeader.StartCreateFrom
    refine ⟨?_, ?_⟩
    · split
      · rename_i hcond
        exact absurd hcond (by simp [EcType.isErr])
      · split <;> rfl
    · intro hok
      split
      · rename_i hcond
        exact absurd hcond (by simp [EcType.isErr])
      · split
        · rename_i hcond
          rw [hok] at hcond
          exact absurd hcond (by simp [EcType.isErr])
        · rfl

/-- Claim C3 witness: a concrete instantiation of the pattern with
numeric header and body parts and the validation predicate accepting
exactly the value 5 — run on a header that validates, one that does not,
and a successfully read body. -/
theorem packetWithHeader_header_first_shortcircuit_witness :
    ((PacketWithHeader.StartCreateFrom
        (headerStartCreateFrom (fun h : Nat => h == 5) EcType.ok 7)
        ((EcType.ok, 9) : EcType × Nat)).reads.head? =
      some PacketReadStep.headerRead ∧
    (EcType.ok = EcType.ok → (fun h : Nat => h == 5) 7 = false →
      PacketWithHeader.StartCreateFrom
          (headerStartCreateFrom (fun h : Nat => h == 5) EcType.ok 7)
          ((EcType.ok, 9) : EcType × Nat) =
        { reads := [.headerRead], cbEc := protocolErrorEc,
          cbPacket := default }) ∧
    (EcType.ok = EcType.ok → (fun h : Nat => h == 5) 7 = true →
      (PacketWithHeader.StartCreateFrom
          (headerStartCreateFrom (fun h : Nat => h == 5) EcType.ok 7)
          ((EcType.ok, 9) : EcType × Nat)).reads =
        [.headerRead, .bodyRead] ∧
      (((EcType.ok, 9) : EcType × Nat).1 = EcType.ok →
        (PacketWithHeader.StartCreateFrom
            (headerStartCreateFrom (fun h : Nat => h == 5) EcType.ok 7)
            ((EcType.ok, 9) : EcType × Nat)).cbPacket =
          { header := 7, body := ((EcType.ok, 9) : EcType × Nat).2 }))) :=
  packetWithHeader_header_first_shortcircuit (fun h : Nat => h == 5)
    EcType.ok 7 ((EcType.ok, 9) : EcType × Nat)

/-- Claim C10: whenever any read involved in creating a packet completes
with an error, the creation callback receives a default-constructed
packet — in the fixed-size pattern, on a failed header read and on a
failed body read following a successful header read alike; no field of the
delivered packet comes from partially-read data. -/
theorem createFrom_error_yields_default_packet
    {PacketType Header Body : Type}
    [Inhabited PacketType] [Inhabited Header] [Inhabited Body]
    (fromBytes : List Nat → PacketType) (data : List Nat) (ec bodyEc : EcType)
    (hdr : Header) (bdy : Body) (hec : ec.isErr = true) :
    (PacketWithSize.StartCreateFrom fromBytes ec data).2 = default ∧
    (PacketWithHeader.StartCreateFrom ((ec, hdr) : EcType × Header)
        ((bodyEc, bdy) : EcType × Body)).cbPacket = default ∧
    (PacketWithHeader.StartCreateFrom ((EcType.ok, hdr) : EcType × Header)
        ((ec, bdy) : EcType × Body)).cbPacket = default := by
  refine ⟨?_, ?_, ?_⟩
  · simp [PacketWithSize.StartCreateFrom, hec]
  · simp [PacketWithHeader.StartCreateFrom, hec]
  · unfold PacketWithHeader.StartCreateFrom
    split
    · rename_i hcond
      exact absurd hcond (by simp [EcType.isErr])
    · simp [hec]

/-- Claim C10 witness: a concrete instantiation with numeric parts and a
`connection_reset`-style system error. -/
theorem createFrom_error_yields_default_packet_witness :
    ((EcType.sys 104).isErr = true) ∧
    ((PacketWithSize.StartCreateFrom (fun l => l.length) (EcType.sys 104)
        [1, 2, 3]).2 = (default : Nat) ∧
      (PacketWithHeader.StartCreateFrom
          ((EcType.sys 104, 5) : EcType × Nat)
          ((EcType.ok, 6) : EcType × Nat)).cbPacket = default ∧
      (PacketWithHeader.StartCreateFrom ((EcType.ok, 5) : EcType × Nat)
          ((EcType.sys 104, 6) : EcType × Nat)).cbPacket = default) :=
  ⟨by decide,
    createFrom_error_yields_default_packet (fun l => l.length) [1, 2, 3]
      (EcType.sys 104) EcType.ok 5 6 (by decide)⟩

end Thestral
